import Mathlib

/-!
# NetworkModule GPIO layer (`src/NetworkModule/Gpio.c`)

A shallow embedding of `gpio_init` (one definition per value of the build-time
selector `GPIO_SUPPORT`), of `LEDcontrol`, and of the pinout maps that the
source gives, port by port, in the comments above the register writes.

Registers are 8-bit; they are held as natural numbers and every value the code
stores goes through the `(uint8_t)` conversion `u8`.
-/

namespace NetworkModule

/-! ## Registers -/

/-- Conversion of a C `int` expression to `uint8_t`: reduction modulo 2^8. -/
def u8 (x : Int) : Nat := (x % 256).toNat

/-- Modelled from the spec: the GPIO register declarations of `iostm8s005.h`,
which `Gpio.c` includes but which is not among the sources. Each port owns a
data register (`ODR`) and the three configuration registers the spec calls
direction (`DDR`), control-1 (`CR1`) and control-2 (`CR2`). The field names are
the register names `Gpio.c` uses; Port F is named only in the comment
"Port F: Not attached to pins". -/
structure Regs where
  PA_ODR : Nat
  PA_DDR : Nat
  PA_CR1 : Nat
  PA_CR2 : Nat
  PB_ODR : Nat
  PB_DDR : Nat
  PB_CR1 : Nat
  PB_CR2 : Nat
  PC_ODR : Nat
  PC_DDR : Nat
  PC_CR1 : Nat
  PC_CR2 : Nat
  PD_ODR : Nat
  PD_DDR : Nat
  PD_CR1 : Nat
  PD_CR2 : Nat
  PE_ODR : Nat
  PE_DDR : Nat
  PE_CR1 : Nat
  PE_CR2 : Nat
  PF_ODR : Nat
  PF_DDR : Nat
  PF_CR1 : Nat
  PF_CR2 : Nat
  PG_ODR : Nat
  PG_DDR : Nat
  PG_CR1 : Nat
  PG_CR2 : Nat
  deriving DecidableEq, Repr

/-- The GPIO ports named in `Gpio.c`. -/
inductive Port where
  | A | B | C | D | E | F | G
  deriving DecidableEq, Repr

/-- Direction register of a port. -/
def Regs.DDR (s : Regs) : Port → Nat
  | .A => s.PA_DDR
  | .B => s.PB_DDR
  | .C => s.PC_DDR
  | .D => s.PD_DDR
  | .E => s.PE_DDR
  | .F => s.PF_DDR
  | .G => s.PG_DDR

/-- Control register 1 of a port. -/
def Regs.CR1 (s : Regs) : Port → Nat
  | .A => s.PA_CR1
  | .B => s.PB_CR1
  | .C => s.PC_CR1
  | .D => s.PD_CR1
  | .E => s.PE_CR1
  | .F => s.PF_CR1
  | .G => s.PG_CR1

/-- Control register 2 of a port. -/
def Regs.CR2 (s : Regs) : Port → Nat
  | .A => s.PA_CR2
  | .B => s.PB_CR2
  | .C => s.PC_CR2
  | .D => s.PD_CR2
  | .E => s.PE_CR2
  | .F => s.PF_CR2
  | .G => s.PG_CR2

/-- Output data register of a port. -/
def Regs.ODR (s : Regs) : Port → Nat
  | .A => s.PA_ODR
  | .B => s.PB_ODR
  | .C => s.PC_ODR
  | .D => s.PD_ODR
  | .E => s.PE_ODR
  | .F => s.PF_ODR
  | .G => s.PG_ODR

/-- The (direction, control-1, control-2) triple of a port. -/
def Regs.config (s : Regs) (p : Port) : Nat × Nat × Nat :=
  (s.DDR p, s.CR1 p, s.CR2 p)

/-! ## `gpio_init` -/

/-- The `gpio_init` compiled under `#if GPIO_SUPPORT == 1` (16 outputs):
eighteen register stores, in source order. -/
def gpio_init_1 (s : Regs) : Regs :=
  -- Port A
  let s := { s with PA_DDR := u8 0x3c }
  let s := { s with PA_CR1 := u8 0xff }
  let s := { s with PA_CR2 := u8 0x00 }
  -- Port B
  let s := { s with PB_DDR := u8 0x00 }
  let s := { s with PB_CR1 := u8 0xff }
  let s := { s with PB_CR2 := u8 0x00 }
  -- Port C
  let s := { s with PC_DDR := u8 0xce }
  let s := { s with PC_CR1 := u8 0xff }
  let s := { s with PC_CR2 := u8 0x0e }
  -- Port D
  let s := { s with PD_DDR := u8 0xfd }
  let s := { s with PD_CR1 := u8 0xff }
  let s := { s with PD_CR2 := u8 0x00 }
  -- Port E
  let s := { s with PE_DDR := u8 0x29 }
  let s := { s with PE_CR1 := u8 0xff }
  let s := { s with PE_CR2 := u8 0x20 }
  -- Port F: Not attached to pins
  -- Port G
  let s := { s with PG_DDR := u8 0x03 }
  let s := { s with PG_CR1 := u8 0xff }
  let s := { s with PG_CR2 := u8 0x00 }
  s

/-- The `gpio_init` compiled under `#if GPIO_SUPPORT == 2` (8 outputs / 8
inputs). -/
def gpio_init_2 (s : Regs) : Regs :=
  -- Port A
  let s := { s with PA_DDR := u8 0x2c }
  let s := { s with PA_CR1 := u8 0xff }
  let s := { s with PA_CR2 := u8 0x00 }
  -- Port B
  let s := { s with PB_DDR := u8 0x00 }
  let s := { s with PB_CR1 := u8 0xff }
  let s := { s with PB_CR2 := u8 0x00 }
  -- Port C
  let s := { s with PC_DDR := u8 0x8e }
  let s := { s with PC_CR1 := u8 0xff }
  let s := { s with PC_CR2 := u8 0x0e }
  -- Port D
  let s := { s with PD_DDR := u8 0x54 }
  let s := { s with PD_CR1 := u8 0xff }
  let s := { s with PD_CR2 := u8 0x00 }
  -- Port E
  let s := { s with PE_DDR := u8 0x21 }
  let s := { s with PE_CR1 := u8 0xff }
  let s := { s with PE_CR2 := u8 0x20 }
  -- Port F: Not attached to pins
  -- Port G
  let s := { s with PG_DDR := u8 0x02 }
  let s := { s with PG_CR1 := u8 0xff }
  let s := { s with PG_CR2 := u8 0x00 }
  s

/-- The `gpio_init` compiled under `#if GPIO_SUPPORT == 3` (16 inputs). -/
def gpio_init_3 (s : Regs) : Regs :=
  -- Port A
  let s := { s with PA_DDR := u8 0x04 }
  let s := { s with PA_CR1 := u8 0xff }
  let s := { s with PA_CR2 := u8 0x00 }
  -- Port B
  let s := { s with PB_DDR := u8 0x00 }
  let s := { s with PB_CR1 := u8 0xff }
  let s := { s with PB_CR2 := u8 0x00 }
  -- Port C
  let s := { s with PC_DDR := u8 0x0e }
  let s := { s with PC_CR1 := u8 0xff }
  let s := { s with PC_CR2 := u8 0x0e }
  -- Port D
  let s := { s with PD_DDR := u8 0x00 }
  let s := { s with PD_CR1 := u8 0xff }
  let s := { s with PD_CR2 := u8 0x00 }
  -- Port E
  let s := { s with PE_DDR := u8 0x20 }
  let s := { s with PE_CR1 := u8 0xff }
  let s := { s with PE_CR2 := u8 0x20 }
  -- Port F: Not attached to pins
  -- Port G
  let s := { s with PG_DDR := u8 0x00 }
  let s := { s with PG_CR1 := u8 0xff }
  let s := { s with PG_CR2 := u8 0x00 }
  s

/-! ## `LEDcontrol` -/

/-- `LEDcontrol(uint8_t state)`: `PA_ODR |= (uint8_t)0x04` when `state == 1`,
`PA_ODR &= (uint8_t)(~0x04)` otherwise. The compound assignment stores the
result back into the 8-bit register. -/
def LEDcontrol (state : Nat) (s : Regs) : Regs :=
  if state == 1 then { s with PA_ODR := (s.PA_ODR ||| u8 0x04) % 256 }
  else { s with PA_ODR := (s.PA_ODR &&& u8 (~~~0x04)) % 256 }

/-! ## Pinout maps -/

/-- The electrical role column of a pinout line: `Input  PU`, `Output OD`,
`Output PP` or `Alternate`. -/
inductive Role where
  | InputPU | OutputOD | OutputPP | Alternate
  deriving DecidableEq, Repr

/-- The last column of a pinout line: what the pin is wired to. `Relay n` is
"Relay n control", `Input n` is "Input n", `NotUsed` is "Not used?". -/
inductive Func where
  | Relay (n : Nat)
  | Input (n : Nat)
  | LED
  | RstButton
  | ENC_INT
  | ENC_SO
  | ENC_SI
  | ENC_SCK
  | ENC_CS
  | ENC_RESET
  | SWIM
  | NotUsed
  deriving DecidableEq, Repr

/-- What a pinout line says of a bit that is attached to a pin: the package
pin number, the role and the function. -/
structure Attach where
  pin : Nat
  role : Role
  func : Func
  deriving DecidableEq, Repr

/-- One `// Bit b - ...` line of a port's pinout map; `attached = none` is
"Not attached to pin". -/
structure PinRow where
  port : Port
  bit : Nat
  attached : Option Attach
  deriving DecidableEq, Repr

/-- The pinout maps in the comments of the `gpio_init` compiled under
`#if GPIO_SUPPORT == 1` (16 outputs), one row per `// Bit ...` line, in source
order. -/
def pinout_1 : List PinRow := [
  -- Port A
  ⟨.A, 7, none⟩,
  ⟨.A, 6, some ⟨12, .InputPU, .NotUsed⟩⟩,
  ⟨.A, 5, some ⟨11, .OutputOD, .Relay 2⟩⟩,
  ⟨.A, 4, some ⟨10, .OutputOD, .Relay 9⟩⟩,
  ⟨.A, 3, some ⟨9, .OutputOD, .Relay 1⟩⟩,
  ⟨.A, 2, some ⟨3, .OutputPP, .LED⟩⟩,
  ⟨.A, 1, some ⟨2, .InputPU, .RstButton⟩⟩,
  ⟨.A, 0, none⟩,
  -- Port B
  ⟨.B, 7, some ⟨15, .InputPU, .NotUsed⟩⟩,
  ⟨.B, 6, some ⟨16, .InputPU, .NotUsed⟩⟩,
  ⟨.B, 5, some ⟨17, .InputPU, .NotUsed⟩⟩,
  ⟨.B, 4, some ⟨18, .InputPU, .NotUsed⟩⟩,
  ⟨.B, 3, some ⟨19, .InputPU, .NotUsed⟩⟩,
  ⟨.B, 2, some ⟨20, .InputPU, .NotUsed⟩⟩,
  ⟨.B, 1, some ⟨21, .InputPU, .NotUsed⟩⟩,
  ⟨.B, 0, some ⟨22, .InputPU, .NotUsed⟩⟩,
  -- Port C
  ⟨.C, 7, some ⟨34, .OutputOD, .Relay 8⟩⟩,
  ⟨.C, 6, some ⟨33, .OutputOD, .Relay 16⟩⟩,
  ⟨.C, 5, some ⟨30, .InputPU, .ENC_INT⟩⟩,
  ⟨.C, 4, some ⟨29, .InputPU, .ENC_SO⟩⟩,
  ⟨.C, 3, some ⟨28, .OutputPP, .ENC_SI⟩⟩,
  ⟨.C, 2, some ⟨27, .OutputPP, .ENC_SCK⟩⟩,
  ⟨.C, 1, some ⟨26, .OutputPP, .ENC_CS⟩⟩,
  ⟨.C, 0, none⟩,
  -- Port D
  ⟨.D, 7, some ⟨48, .OutputOD, .Relay 10⟩⟩,
  ⟨.D, 6, some ⟨47, .OutputOD, .Relay 3⟩⟩,
  ⟨.D, 5, some ⟨46, .OutputOD, .Relay 11⟩⟩,
  ⟨.D, 4, some ⟨45, .OutputOD, .Relay 4⟩⟩,
  ⟨.D, 3, some ⟨44, .OutputOD, .Relay 12⟩⟩,
  ⟨.D, 2, some ⟨43, .OutputOD, .Relay 5⟩⟩,
  ⟨.D, 1, some ⟨42, .Alternate, .SWIM⟩⟩,
  ⟨.D, 0, some ⟨41, .OutputOD, .Relay 13⟩⟩,
  -- Port E
  ⟨.E, 7, some ⟨23, .InputPU, .NotUsed⟩⟩,
  ⟨.E, 6, some ⟨24, .InputPU, .NotUsed⟩⟩,
  ⟨.E, 5, some ⟨25, .OutputPP, .ENC_RESET⟩⟩,
  ⟨.E, 4, none⟩,
  ⟨.E, 3, some ⟨37, .OutputOD, .Relay 14⟩⟩,
  ⟨.E, 2, some ⟨38, .InputPU, .NotUsed⟩⟩,
  ⟨.E, 1, some ⟨39, .InputPU, .NotUsed⟩⟩,
  ⟨.E, 0, some ⟨40, .OutputOD, .Relay 6⟩⟩,
  -- Port G
  ⟨.G, 7, none⟩,
  ⟨.G, 6, none⟩,
  ⟨.G, 5, none⟩,
  ⟨.G, 4, none⟩,
  ⟨.G, 3, none⟩,
  ⟨.G, 2, none⟩,
  ⟨.G, 1, some ⟨36, .OutputOD, .Relay 7⟩⟩,
  ⟨.G, 0, some ⟨35, .OutputOD, .Relay 15⟩⟩]

/-- The pinout maps in the comments of the `gpio_init` compiled under
`#if GPIO_SUPPORT == 2` (8 outputs / 8 inputs), one row per `// Bit ...` line, in source
order. -/
def pinout_2 : List PinRow := [
  -- Port A
  ⟨.A, 7, none⟩,
  ⟨.A, 6, some ⟨12, .InputPU, .NotUsed⟩⟩,
  ⟨.A, 5, some ⟨11, .OutputOD, .Relay 2⟩⟩,
  ⟨.A, 4, some ⟨10, .InputPU, .Input 1⟩⟩,
  ⟨.A, 3, some ⟨9, .OutputOD, .Relay 1⟩⟩,
  ⟨.A, 2, some ⟨3, .OutputPP, .LED⟩⟩,
  ⟨.A, 1, some ⟨2, .InputPU, .RstButton⟩⟩,
  ⟨.A, 0, none⟩,
  -- Port B
  ⟨.B, 7, some ⟨15, .InputPU, .NotUsed⟩⟩,
  ⟨.B, 6, some ⟨16, .InputPU, .NotUsed⟩⟩,
  ⟨.B, 5, some ⟨17, .InputPU, .NotUsed⟩⟩,
  ⟨.B, 4, some ⟨18, .InputPU, .NotUsed⟩⟩,
  ⟨.B, 3, some ⟨19, .InputPU, .NotUsed⟩⟩,
  ⟨.B, 2, some ⟨20, .InputPU, .NotUsed⟩⟩,
  ⟨.B, 1, some ⟨21, .InputPU, .NotUsed⟩⟩,
  ⟨.B, 0, some ⟨22, .InputPU, .NotUsed⟩⟩,
  -- Port C
  ⟨.C, 7, some ⟨34, .OutputOD, .Relay 8⟩⟩,
  ⟨.C, 6, some ⟨33, .InputPU, .Input 8⟩⟩,
  ⟨.C, 5, some ⟨30, .InputPU, .ENC_INT⟩⟩,
  ⟨.C, 4, some ⟨29, .InputPU, .ENC_SO⟩⟩,
  ⟨.C, 3, some ⟨28, .OutputPP, .ENC_SI⟩⟩,
  ⟨.C, 2, some ⟨27, .OutputPP, .ENC_SCK⟩⟩,
  ⟨.C, 1, some ⟨26, .OutputPP, .ENC_CS⟩⟩,
  ⟨.C, 0, none⟩,
  -- Port D
  ⟨.D, 7, some ⟨48, .InputPU, .Input 2⟩⟩,
  ⟨.D, 6, some ⟨47, .OutputOD, .Relay 3⟩⟩,
  ⟨.D, 5, some ⟨46, .InputPU, .Input 3⟩⟩,
  ⟨.D, 4, some ⟨45, .OutputOD, .Relay 4⟩⟩,
  ⟨.D, 3, some ⟨44, .InputPU, .Input 4⟩⟩,
  ⟨.D, 2, some ⟨43, .OutputOD, .Relay 5⟩⟩,
  ⟨.D, 1, some ⟨42, .Alternate, .SWIM⟩⟩,
  ⟨.D, 0, some ⟨41, .InputPU, .Input 5⟩⟩,
  -- Port E
  ⟨.E, 7, some ⟨23, .InputPU, .NotUsed⟩⟩,
  ⟨.E, 6, some ⟨24, .InputPU, .NotUsed⟩⟩,
  ⟨.E, 5, some ⟨25, .OutputPP, .ENC_RESET⟩⟩,
  ⟨.E, 4, none⟩,
  ⟨.E, 3, some ⟨37, .InputPU, .Input 6⟩⟩,
  ⟨.E, 2, some ⟨38, .InputPU, .NotUsed⟩⟩,
  ⟨.E, 1, some ⟨39, .InputPU, .NotUsed⟩⟩,
  ⟨.E, 0, some ⟨40, .OutputOD, .Relay 6⟩⟩,
  -- Port G
  ⟨.G, 7, none⟩,
  ⟨.G, 6, none⟩,
  ⟨.G, 5, none⟩,
  ⟨.G, 4, none⟩,
  ⟨.G, 3, none⟩,
  ⟨.G, 2, none⟩,
  ⟨.G, 1, some ⟨36, .OutputOD, .Relay 7⟩⟩,
  ⟨.G, 0, some ⟨35, .InputPU, .Input 7⟩⟩]

/-- The pinout maps in the comments of the `gpio_init` compiled under
`#if GPIO_SUPPORT == 3` (16 inputs), one row per `// Bit ...` line, in source
order. -/
def pinout_3 : List PinRow := [
  -- Port A
  ⟨.A, 7, none⟩,
  ⟨.A, 6, some ⟨12, .InputPU, .NotUsed⟩⟩,
  ⟨.A, 5, some ⟨11, .InputPU, .Input 2⟩⟩,
  ⟨.A, 4, some ⟨10, .InputPU, .Input 9⟩⟩,
  ⟨.A, 3, some ⟨9, .InputPU, .Input 1⟩⟩,
  ⟨.A, 2, some ⟨3, .OutputPP, .LED⟩⟩,
  ⟨.A, 1, some ⟨2, .InputPU, .RstButton⟩⟩,
  ⟨.A, 0, none⟩,
  -- Port B
  ⟨.B, 7, some ⟨15, .InputPU, .NotUsed⟩⟩,
  ⟨.B, 6, some ⟨16, .InputPU, .NotUsed⟩⟩,
  ⟨.B, 5, some ⟨17, .InputPU, .NotUsed⟩⟩,
  ⟨.B, 4, some ⟨18, .InputPU, .NotUsed⟩⟩,
  ⟨.B, 3, some ⟨19, .InputPU, .NotUsed⟩⟩,
  ⟨.B, 2, some ⟨20, .InputPU, .NotUsed⟩⟩,
  ⟨.B, 1, some ⟨21, .InputPU, .NotUsed⟩⟩,
  ⟨.B, 0, some ⟨22, .InputPU, .NotUsed⟩⟩,
  -- Port C
  ⟨.C, 7, some ⟨34, .InputPU, .Input 8⟩⟩,
  ⟨.C, 6, some ⟨33, .InputPU, .Input 16⟩⟩,
  ⟨.C, 5, some ⟨30, .InputPU, .ENC_INT⟩⟩,
  ⟨.C, 4, some ⟨29, .InputPU, .ENC_SO⟩⟩,
  ⟨.C, 3, some ⟨28, .OutputPP, .ENC_SI⟩⟩,
  ⟨.C, 2, some ⟨27, .OutputPP, .ENC_SCK⟩⟩,
  ⟨.C, 1, some ⟨26, .OutputPP, .ENC_CS⟩⟩,
  ⟨.C, 0, none⟩,
  -- Port D
  ⟨.D, 7, some ⟨48, .InputPU, .Input 10⟩⟩,
  ⟨.D, 6, some ⟨47, .InputPU, .Input 3⟩⟩,
  ⟨.D, 5, some ⟨46, .InputPU, .Input 11⟩⟩,
  ⟨.D, 4, some ⟨45, .InputPU, .Input 4⟩⟩,
  ⟨.D, 3, some ⟨44, .InputPU, .Input 12⟩⟩,
  ⟨.D, 2, some ⟨43, .InputPU, .Input 5⟩⟩,
  ⟨.D, 1, some ⟨42, .Alternate, .SWIM⟩⟩,
  ⟨.D, 0, some ⟨41, .InputPU, .Input 13⟩⟩,
  -- Port E
  ⟨.E, 7, some ⟨23, .InputPU, .NotUsed⟩⟩,
  ⟨.E, 6, some ⟨24, .InputPU, .NotUsed⟩⟩,
  ⟨.E, 5, some ⟨25, .OutputPP, .ENC_RESET⟩⟩,
  ⟨.E, 4, none⟩,
  ⟨.E, 3, some ⟨37, .InputPU, .Input 14⟩⟩,
  ⟨.E, 2, some ⟨38, .InputPU, .NotUsed⟩⟩,
  ⟨.E, 1, some ⟨39, .InputPU, .NotUsed⟩⟩,
  ⟨.E, 0, some ⟨40, .InputPU, .Input 6⟩⟩,
  -- Port G
  ⟨.G, 7, none⟩,
  ⟨.G, 6, none⟩,
  ⟨.G, 5, none⟩,
  ⟨.G, 4, none⟩,
  ⟨.G, 3, none⟩,
  ⟨.G, 2, none⟩,
  ⟨.G, 1, some ⟨36, .InputPU, .Input 7⟩⟩,
  ⟨.G, 0, some ⟨35, .InputPU, .Input 15⟩⟩]

/-! ## Reading the pinout maps -/

/-- The (port, bit) a pinout line is about. -/
def PinRow.loc (r : PinRow) : Port × Nat := (r.port, r.bit)

/-- The function column of a pinout line, when the bit is attached to a pin. -/
def PinRow.func (r : PinRow) : Option Func := r.attached.map Attach.func

/-- The role column of a pinout line, when the bit is attached to a pin. -/
def PinRow.role (r : PinRow) : Option Role := r.attached.map Attach.role

/-- A function entry names a logical channel unless it is the SWIM debug pin
or "Not used?". -/
def Func.isChannel : Func → Bool
  | .SWIM => false
  | .NotUsed => false
  | _ => true

/-- `Output OD` and `Output PP` are the output roles. -/
def Role.isOutput : Role → Bool
  | .OutputOD => true
  | .OutputPP => true
  | .InputPU => false
  | .Alternate => false

/-- The logical channels a pinout map names, in table order. -/
def channels (T : List PinRow) : List Func :=
  (T.filterMap PinRow.func).filter Func.isChannel

/-- The (port, bit) places at which a pinout map lists the function `f`. -/
def locations (T : List PinRow) (f : Func) : List (Port × Nat) :=
  (T.filter fun r => r.func = some f).map PinRow.loc

/-- The ports `gpio_init` configures: every port but F ("Not attached to
pins"). -/
def configuredPorts : List Port := [.A, .B, .C, .D, .E, .G]

/-- A register file with every register zero, used to build concrete states. -/
def Regs.zero : Regs :=
  { PA_ODR := 0, PA_DDR := 0, PA_CR1 := 0, PA_CR2 := 0,
    PB_ODR := 0, PB_DDR := 0, PB_CR1 := 0, PB_CR2 := 0,
    PC_ODR := 0, PC_DDR := 0, PC_CR1 := 0, PC_CR2 := 0,
    PD_ODR := 0, PD_DDR := 0, PD_CR1 := 0, PD_CR2 := 0,
    PE_ODR := 0, PE_DDR := 0, PE_CR1 := 0, PE_CR2 := 0,
    PF_ODR := 0, PF_DDR := 0, PF_CR1 := 0, PF_CR2 := 0,
    PG_ODR := 0, PG_DDR := 0, PG_CR1 := 0, PG_CR2 := 0 }

/-- A register file that is zero except for the Port A data register. -/
def withPA_ODR (v : Nat) : Regs := { Regs.zero with PA_ODR := v }

/-- A register file in which bit 1 of Port D is set in the direction and
control-2 registers and clear in control-1. -/
def swimProbe : Regs := { Regs.zero with PD_DDR := 0x02, PD_CR1 := 0x00, PD_CR2 := 0x02 }

/-! ## Build-time selection -/

/-- The value `uipopt.h` configures: `#define GPIO_SUPPORT  1`. -/
def GPIO_SUPPORT : Int := 1

/-- The definitions of `gpio_init` the preprocessor keeps in `Gpio.c` for a
value `G` of the selector: the three blocks `#if G == 1 ... #endif`,
`#if G == 2 ... #endif`, `#if G == 3 ... #endif`, one after the other. -/
def gpio_init_defs (G : Int) : List (Regs → Regs) :=
  (if G == 1 then [gpio_init_1] else []) ++
  (if G == 2 then [gpio_init_2] else []) ++
  (if G == 3 then [gpio_init_3] else [])

/-- A call of `gpio_init()` in a build with selector value `G`: it runs the
definition in effect when there is exactly one; with no definition (or more
than one) there is no program to run. -/
def gpio_init (G : Int) (s : Regs) : Option Regs :=
  match gpio_init_defs G with
  | [f] => some (f s)
  | _ => none

/-- The (port, bit) places a pinout map marks "Not attached to pin". -/
def unattached (T : List PinRow) : List (Port × Nat) :=
  (T.filter fun r => r.attached = none).map PinRow.loc

/-! ## Theorems -/

/-- A value that fits in 8 bits has no bit set at position 8 or above. -/
theorem testBit_eq_false_of_lt_256 {v b : Nat} (hv : v < 256) (hb : 8 ≤ b) :
    v.testBit b = false :=
  Nat.testBit_lt_two_pow
    (lt_of_lt_of_le hv (Nat.pow_le_pow_right (by norm_num : 0 < 2) hb))

/-- On every port but F, what `gpio_init` (GPIO_SUPPORT = 1) leaves in the
three configuration registers is what it leaves when started from
`Regs.zero`. -/
theorem gpio_init_1_from_zero (s : Regs) (p : Port) (hp : p ≠ .F) :
    (gpio_init_1 s).DDR p = (gpio_init_1 Regs.zero).DDR p ∧
    (gpio_init_1 s).CR1 p = (gpio_init_1 Regs.zero).CR1 p ∧
    (gpio_init_1 s).CR2 p = (gpio_init_1 Regs.zero).CR2 p := by
  cases p <;> first | exact ⟨rfl, rfl, rfl⟩ | exact absurd rfl hp

/-- The same for the `gpio_init` of GPIO_SUPPORT = 2. -/
theorem gpio_init_2_from_zero (s : Regs) (p : Port) (hp : p ≠ .F) :
    (gpio_init_2 s).DDR p = (gpio_init_2 Regs.zero).DDR p ∧
    (gpio_init_2 s).CR1 p = (gpio_init_2 Regs.zero).CR1 p ∧
    (gpio_init_2 s).CR2 p = (gpio_init_2 Regs.zero).CR2 p := by
  cases p <;> first | exact ⟨rfl, rfl, rfl⟩ | exact absurd rfl hp

/-- The same for the `gpio_init` of GPIO_SUPPORT = 3. -/
theorem gpio_init_3_from_zero (s : Regs) (p : Port) (hp : p ≠ .F) :
    (gpio_init_3 s).DDR p = (gpio_init_3 Regs.zero).DDR p ∧
    (gpio_init_3 s).CR1 p = (gpio_init_3 Regs.zero).CR1 p ∧
    (gpio_init_3 s).CR2 p = (gpio_init_3 Regs.zero).CR2 p := by
  cases p <;> first | exact ⟨rfl, rfl, rfl⟩ | exact absurd rfl hp

/-- No pinout line is about Port F. -/
theorem pinout_port_ne_F :
    (∀ r ∈ pinout_1, r.port ≠ .F) ∧ (∀ r ∈ pinout_2, r.port ≠ .F) ∧
    (∀ r ∈ pinout_3, r.port ≠ .F) := by
  decide

/-- Port F is not among the configured ports. -/
theorem configuredPorts_ne_F : ∀ p ∈ configuredPorts, p ≠ Port.F := by
  decide

/-- The four link output places all have a bit index below 8. -/
theorem link_pins_bit_lt (p : Port) (b : Nat)
    (h : (p, b) ∈ [(Port.C, 1), (.C, 2), (.C, 3), (.E, 5)]) : b < 8 := by
  simp only [List.mem_cons, Prod.mk.injEq, List.mem_singleton, List.not_mem_nil, or_false] at h
  rcases h with ⟨-, h⟩ | ⟨-, h⟩ | ⟨-, h⟩ | ⟨-, h⟩ <;> omega

/-- C1: under GPIO_SUPPORT = 1, whatever the registers held before the call,
gpio_init leaves (direction, control-1, control-2) equal to (0x3C,0xFF,0x00) on
Port A, (0xCE,0xFF,0x0E) on Port C, (0xFD,0xFF,0x00) on Port D,
(0x29,0xFF,0x20) on Port E and (0x03,0xFF,0x00) on Port G; in particular the
triples of two calls from different prior states agree. -/
theorem gpio_init_1_image (s t : Regs) :
    (gpio_init_1 s).config .A = (0x3C, 0xFF, 0x00) ∧
    (gpio_init_1 s).config .C = (0xCE, 0xFF, 0x0E) ∧
    (gpio_init_1 s).config .D = (0xFD, 0xFF, 0x00) ∧
    (gpio_init_1 s).config .E = (0x29, 0xFF, 0x20) ∧
    (gpio_init_1 s).config .G = (0x03, 0xFF, 0x00) ∧
    ∀ p, p ≠ Port.F → (gpio_init_1 s).config p = (gpio_init_1 t).config p := by
  refine ⟨rfl, rfl, rfl, rfl, rfl, ?_⟩
  intro p hp
  cases p <;> first | rfl | exact absurd rfl hp

/-- C2: under GPIO_SUPPORT = 2, whatever the registers held before the call,
gpio_init leaves (direction, control-1, control-2) equal to (0x2C,0xFF,0x00) on
Port A, (0x8E,0xFF,0x0E) on Port C, (0x54,0xFF,0x00) on Port D,
(0x21,0xFF,0x20) on Port E and (0x02,0xFF,0x00) on Port G. -/
theorem gpio_init_2_image (s : Regs) :
    (gpio_init_2 s).config .A = (0x2C, 0xFF, 0x00) ∧
    (gpio_init_2 s).config .C = (0x8E, 0xFF, 0x0E) ∧
    (gpio_init_2 s).config .D = (0x54, 0xFF, 0x00) ∧
    (gpio_init_2 s).config .E = (0x21, 0xFF, 0x20) ∧
    (gpio_init_2 s).config .G = (0x02, 0xFF, 0x00) :=
  ⟨rfl, rfl, rfl, rfl, rfl⟩

/-- C3: under GPIO_SUPPORT = 3, whatever the registers held before the call,
gpio_init leaves (direction, control-1, control-2) equal to (0x04,0xFF,0x00) on
Port A, (0x0E,0xFF,0x0E) on Port C, (0x00,0xFF,0x00) on Port D,
(0x20,0xFF,0x20) on Port E and (0x00,0xFF,0x00) on Port G. -/
theorem gpio_init_3_image (s : Regs) :
    (gpio_init_3 s).config .A = (0x04, 0xFF, 0x00) ∧
    (gpio_init_3 s).config .C = (0x0E, 0xFF, 0x0E) ∧
    (gpio_init_3 s).config .D = (0x00, 0xFF, 0x00) ∧
    (gpio_init_3 s).config .E = (0x20, 0xFF, 0x20) ∧
    (gpio_init_3 s).config .G = (0x00, 0xFF, 0x00) :=
  ⟨rfl, rfl, rfl, rfl, rfl⟩

/-- C4: for every 8-bit prior value of PA_ODR, LEDcontrol(1) leaves
PA_ODR = v OR 0x04 and LEDcontrol(0) leaves PA_ODR = v AND 0xFB; bit 2 reads
back 1 after on and 0 after off, and every other bit of PA_ODR is unchanged. -/
theorem LEDcontrol_writes_bit2_only (s : Regs) (h : s.PA_ODR < 256) :
    (LEDcontrol 1 s).PA_ODR = s.PA_ODR ||| 0x04 ∧
    (LEDcontrol 0 s).PA_ODR = s.PA_ODR &&& 0xFB ∧
    (LEDcontrol 1 s).PA_ODR.testBit 2 = true ∧
    (LEDcontrol 0 s).PA_ODR.testBit 2 = false ∧
    ∀ i, i ≠ 2 →
      (LEDcontrol 1 s).PA_ODR.testBit i = s.PA_ODR.testBit i ∧
      (LEDcontrol 0 s).PA_ODR.testBit i = s.PA_ODR.testBit i := by
  have h1 : (LEDcontrol 1 s).PA_ODR = s.PA_ODR ||| 4 :=
    Nat.mod_eq_of_lt (Nat.or_lt_two_pow (n := 8) h (by decide))
  have h0 : (LEDcontrol 0 s).PA_ODR = s.PA_ODR &&& 251 :=
    Nat.mod_eq_of_lt (lt_of_le_of_lt Nat.and_le_left h)
  refine ⟨h1, h0, ?_, ?_, ?_⟩
  · rw [h1, Nat.testBit_or]; simp [show Nat.testBit 4 2 = true by decide]
  · rw [h0, Nat.testBit_and]; simp [show Nat.testBit 251 2 = false by decide]
  · intro i hi
    rw [h1, h0, Nat.testBit_or, Nat.testBit_and]
    by_cases h8 : i < 8
    · have h4 : Nat.testBit 4 i = false := by
        interval_cases i <;> first | rfl | exact absurd rfl hi
      have h251 : Nat.testBit 251 i = true := by
        interval_cases i <;> first | rfl | exact absurd rfl hi
      simp [h4, h251]
    · have hv : s.PA_ODR.testBit i = false :=
        testBit_eq_false_of_lt_256 h (by omega)
      have h4 : Nat.testBit 4 i = false :=
        testBit_eq_false_of_lt_256 (by decide) (by omega)
      simp [hv, h4]

/-- Witness for C4: from PA_ODR = 0xA1, LEDcontrol(1) gives 0xA5 and
LEDcontrol(0) gives 0xA1. -/
theorem LEDcontrol_writes_bit2_only_witness :
    (withPA_ODR 0xA1).PA_ODR < 256 ∧
    (LEDcontrol 1 (withPA_ODR 0xA1)).PA_ODR = 0xA5 ∧
    (LEDcontrol 0 (withPA_ODR 0xA1)).PA_ODR = 0xA1 :=
  ⟨by decide,
   (LEDcontrol_writes_bit2_only (withPA_ODR 0xA1) (by decide)).1,
   (LEDcontrol_writes_bit2_only (withPA_ODR 0xA1) (by decide)).2.1⟩

/-- C5: in each of the three pinout maps, every logical channel the map names
is listed at exactly one (port, bit), no (port, bit) is listed for two
channels (each bit has one line), and the channels listed so include LED,
-RstButton, the six ENC28J60 lines and every Relay N and Input N of the
variant (Relay 1..16; Relay 1..8 and Input 1..8; Input 1..16). -/
theorem pinout_channel_places_unique :
    ((∀ c ∈ channels pinout_1, (locations pinout_1 c).length = 1) ∧
     (∀ c₁ ∈ channels pinout_1, ∀ c₂ ∈ channels pinout_1, ∀ pb ∈ locations pinout_1 c₁,
        pb ∈ locations pinout_1 c₂ → c₁ = c₂) ∧
     (pinout_1.map PinRow.loc).Nodup ∧
     (∀ c ∈ [Func.LED, .RstButton, .ENC_CS, .ENC_SCK, .ENC_SI, .ENC_SO, .ENC_INT, .ENC_RESET],
        c ∈ channels pinout_1)) ∧
    ((∀ c ∈ channels pinout_2, (locations pinout_2 c).length = 1) ∧
     (∀ c₁ ∈ channels pinout_2, ∀ c₂ ∈ channels pinout_2, ∀ pb ∈ locations pinout_2 c₁,
        pb ∈ locations pinout_2 c₂ → c₁ = c₂) ∧
     (pinout_2.map PinRow.loc).Nodup ∧
     (∀ c ∈ [Func.LED, .RstButton, .ENC_CS, .ENC_SCK, .ENC_SI, .ENC_SO, .ENC_INT, .ENC_RESET],
        c ∈ channels pinout_2)) ∧
    ((∀ c ∈ channels pinout_3, (locations pinout_3 c).length = 1) ∧
     (∀ c₁ ∈ channels pinout_3, ∀ c₂ ∈ channels pinout_3, ∀ pb ∈ locations pinout_3 c₁,
        pb ∈ locations pinout_3 c₂ → c₁ = c₂) ∧
     (pinout_3.map PinRow.loc).Nodup ∧
     (∀ c ∈ [Func.LED, .RstButton, .ENC_CS, .ENC_SCK, .ENC_SI, .ENC_SO, .ENC_INT, .ENC_RESET],
        c ∈ channels pinout_3)) ∧
    (∀ n, 1 ≤ n → n ≤ 16 → (locations pinout_1 (.Relay n)).length = 1) ∧
    (∀ n, 1 ≤ n → n ≤ 8 →
      (locations pinout_2 (.Relay n)).length = 1 ∧ (locations pinout_2 (.Input n)).length = 1) ∧
    (∀ n, 1 ≤ n → n ≤ 16 → (locations pinout_3 (.Input n)).length = 1) := by
  refine ⟨by decide, by decide, by decide, ?_, ?_, ?_⟩
  · intro n h1 h2
    interval_cases n <;> decide
  · intro n h1 h2
    interval_cases n <;> decide
  · intro n h1 h2
    interval_cases n <;> decide

/-- C6: the Relay and Input channels of the pinout maps are Relay 1..16 and no
Input under GPIO_SUPPORT = 1, Relay 1..8 and Input 1..8 under GPIO_SUPPORT = 2,
Input 1..16 and no Relay under GPIO_SUPPORT = 3. -/
theorem pinout_relay_input_channels (n : Nat) :
    ((Func.Relay n ∈ channels pinout_1 ↔ 1 ≤ n ∧ n ≤ 16) ∧
     Func.Input n ∉ channels pinout_1) ∧
    ((Func.Relay n ∈ channels pinout_2 ↔ 1 ≤ n ∧ n ≤ 8) ∧
     (Func.Input n ∈ channels pinout_2 ↔ 1 ≤ n ∧ n ≤ 8)) ∧
    ((Func.Input n ∈ channels pinout_3 ↔ 1 ≤ n ∧ n ≤ 16) ∧
     Func.Relay n ∉ channels pinout_3) := by
  have h1 : channels pinout_1 =
      [.Relay 2, .Relay 9, .Relay 1, .LED, .RstButton, .Relay 8, .Relay 16, .ENC_INT,
       .ENC_SO, .ENC_SI, .ENC_SCK, .ENC_CS, .Relay 10, .Relay 3, .Relay 11, .Relay 4,
       .Relay 12, .Relay 5, .Relay 13, .ENC_RESET, .Relay 14, .Relay 6, .Relay 7,
       .Relay 15] := by decide
  have h2 : channels pinout_2 =
      [.Relay 2, .Input 1, .Relay 1, .LED, .RstButton, .Relay 8, .Input 8, .ENC_INT,
       .ENC_SO, .ENC_SI, .ENC_SCK, .ENC_CS, .Input 2, .Relay 3, .Input 3, .Relay 4,
       .Input 4, .Relay 5, .Input 5, .ENC_RESET, .Input 6, .Relay 6, .Relay 7,
       .Input 7] := by decide
  have h3 : channels pinout_3 =
      [.Input 2, .Input 9, .Input 1, .LED, .RstButton, .Input 8, .Input 16, .ENC_INT,
       .ENC_SO, .ENC_SI, .ENC_SCK, .ENC_CS, .Input 10, .Input 3, .Input 11, .Input 4,
       .Input 12, .Input 5, .Input 13, .ENC_RESET, .Input 14, .Input 6, .Input 7,
       .Input 15] := by decide
  rw [h1, h2, h3]
  simp only [List.mem_cons, List.mem_singleton, List.not_mem_nil, Func.Relay.injEq,
    Func.Input.injEq, reduceCtorEq, or_false, false_or, not_false_eq_true, and_true, true_and]
  omega

/-- C7: in each of the three variants, for every pinout line of a bit attached
to a pin, the direction-register bit gpio_init leaves is 1 exactly when the
line's role is Output PP or Output OD, and 0 exactly when it is Input PU or
Alternate. -/
theorem gpio_init_direction_matches_role (s : Regs) :
    (∀ r ∈ pinout_1, ∀ ro, r.role = some ro →
      (((gpio_init_1 s).DDR r.port).testBit r.bit = true ↔ (ro = .OutputPP ∨ ro = .OutputOD)) ∧
      (((gpio_init_1 s).DDR r.port).testBit r.bit = false ↔ (ro = .InputPU ∨ ro = .Alternate))) ∧
    (∀ r ∈ pinout_2, ∀ ro, r.role = some ro →
      (((gpio_init_2 s).DDR r.port).testBit r.bit = true ↔ (ro = .OutputPP ∨ ro = .OutputOD)) ∧
      (((gpio_init_2 s).DDR r.port).testBit r.bit = false ↔ (ro = .InputPU ∨ ro = .Alternate))) ∧
    (∀ r ∈ pinout_3, ∀ ro, r.role = some ro →
      (((gpio_init_3 s).DDR r.port).testBit r.bit = true ↔ (ro = .OutputPP ∨ ro = .OutputOD)) ∧
      (((gpio_init_3 s).DDR r.port).testBit r.bit = false ↔ (ro = .InputPU ∨ ro = .Alternate))) := by
  refine ⟨?_, ?_, ?_⟩
  · intro r hr ro hro
    have hc := (by decide : ∀ r ∈ pinout_1, ∀ ro ∈ r.role,
      (((gpio_init_1 Regs.zero).DDR r.port).testBit r.bit = true ↔
        (ro = .OutputPP ∨ ro = .OutputOD)) ∧
      (((gpio_init_1 Regs.zero).DDR r.port).testBit r.bit = false ↔
        (ro = .InputPU ∨ ro = .Alternate))) r hr ro hro
    rw [(gpio_init_1_from_zero s r.port (pinout_port_ne_F.1 r hr)).1]
    exact hc
  · intro r hr ro hro
    have hc := (by decide : ∀ r ∈ pinout_2, ∀ ro ∈ r.role,
      (((gpio_init_2 Regs.zero).DDR r.port).testBit r.bit = true ↔
        (ro = .OutputPP ∨ ro = .OutputOD)) ∧
      (((gpio_init_2 Regs.zero).DDR r.port).testBit r.bit = false ↔
        (ro = .InputPU ∨ ro = .Alternate))) r hr ro hro
    rw [(gpio_init_2_from_zero s r.port (pinout_port_ne_F.2.1 r hr)).1]
    exact hc
  · intro r hr ro hro
    have hc := (by decide : ∀ r ∈ pinout_3, ∀ ro ∈ r.role,
      (((gpio_init_3 Regs.zero).DDR r.port).testBit r.bit = true ↔
        (ro = .OutputPP ∨ ro = .OutputOD)) ∧
      (((gpio_init_3 Regs.zero).DDR r.port).testBit r.bit = false ↔
        (ro = .InputPU ∨ ro = .Alternate))) r hr ro hro
    rw [(gpio_init_3_from_zero s r.port (pinout_port_ne_F.2.2 r hr)).1]
    exact hc

/-- C8: in each of the three variants, on the ports gpio_init configures the
control-2 bit is 1 exactly at Port C bits 1, 2, 3 and Port E bit 5, which the
pinout map lists as ENC28J60 -CS, SCK, SI and -RESET; hence every bit whose
direction bit is 0 has control-2 = 0. -/
theorem gpio_init_control2_link_pins_only (s : Regs) :
    ((∀ p ∈ configuredPorts, ∀ b,
        (((gpio_init_1 s).CR2 p).testBit b = true ↔ (p, b) ∈ [(Port.C, 1), (.C, 2), (.C, 3), (.E, 5)])) ∧
     (locations pinout_1 .ENC_CS = [(.C, 1)] ∧ locations pinout_1 .ENC_SCK = [(.C, 2)] ∧
      locations pinout_1 .ENC_SI = [(.C, 3)] ∧ locations pinout_1 .ENC_RESET = [(.E, 5)]) ∧
     (∀ p ∈ configuredPorts, ∀ b,
        ((gpio_init_1 s).DDR p).testBit b = false → ((gpio_init_1 s).CR2 p).testBit b = false)) ∧
    ((∀ p ∈ configuredPorts, ∀ b,
        (((gpio_init_2 s).CR2 p).testBit b = true ↔ (p, b) ∈ [(Port.C, 1), (.C, 2), (.C, 3), (.E, 5)])) ∧
     (locations pinout_2 .ENC_CS = [(.C, 1)] ∧ locations pinout_2 .ENC_SCK = [(.C, 2)] ∧
      locations pinout_2 .ENC_SI = [(.C, 3)] ∧ locations pinout_2 .ENC_RESET = [(.E, 5)]) ∧
     (∀ p ∈ configuredPorts, ∀ b,
        ((gpio_init_2 s).DDR p).testBit b = false → ((gpio_init_2 s).CR2 p).testBit b = false)) ∧
    ((∀ p ∈ configuredPorts, ∀ b,
        (((gpio_init_3 s).CR2 p).testBit b = true ↔ (p, b) ∈ [(Port.C, 1), (.C, 2), (.C, 3), (.E, 5)])) ∧
     (locations pinout_3 .ENC_CS = [(.C, 1)] ∧ locations pinout_3 .ENC_SCK = [(.C, 2)] ∧
      locations pinout_3 .ENC_SI = [(.C, 3)] ∧ locations pinout_3 .ENC_RESET = [(.E, 5)]) ∧
     (∀ p ∈ configuredPorts, ∀ b,
        ((gpio_init_3 s).DDR p).testBit b = false → ((gpio_init_3 s).CR2 p).testBit b = false)) := by
  refine ⟨?_, ?_, ?_⟩
  · refine ⟨?_, by decide, ?_⟩
    · intro p hp b
      rw [(gpio_init_1_from_zero s p (configuredPorts_ne_F p hp)).2.2]
      by_cases hb : b < 8
      · exact (by decide : ∀ p ∈ configuredPorts, ∀ b < 8,
          (((gpio_init_1 Regs.zero).CR2 p).testBit b = true ↔
            (p, b) ∈ [(Port.C, 1), (.C, 2), (.C, 3), (.E, 5)])) p hp b hb
      · have hlt := (by decide : ∀ p ∈ configuredPorts,
          (gpio_init_1 Regs.zero).CR2 p < 256) p hp
        rw [testBit_eq_false_of_lt_256 hlt (by omega)]
        exact ⟨fun h => Bool.noConfusion h, fun h => absurd (link_pins_bit_lt p b h) hb⟩
    · intro p hp b
      obtain ⟨e1, -, e3⟩ := gpio_init_1_from_zero s p (configuredPorts_ne_F p hp)
      rw [e1, e3]
      by_cases hb : b < 8
      · exact (by decide : ∀ p ∈ configuredPorts, ∀ b < 8,
          ((gpio_init_1 Regs.zero).DDR p).testBit b = false →
            ((gpio_init_1 Regs.zero).CR2 p).testBit b = false) p hp b hb
      · have hlt := (by decide : ∀ p ∈ configuredPorts,
          (gpio_init_1 Regs.zero).CR2 p < 256) p hp
        intro _
        exact testBit_eq_false_of_lt_256 hlt (by omega)
  · refine ⟨?_, by decide, ?_⟩
    · intro p hp b
      rw [(gpio_init_2_from_zero s p (configuredPorts_ne_F p hp)).2.2]
      by_cases hb : b < 8
      · exact (by decide : ∀ p ∈ configuredPorts, ∀ b < 8,
          (((gpio_init_2 Regs.zero).CR2 p).testBit b = true ↔
            (p, b) ∈ [(Port.C, 1), (.C, 2), (.C, 3), (.E, 5)])) p hp b hb
      · have hlt := (by decide : ∀ p ∈ configuredPorts,
          (gpio_init_2 Regs.zero).CR2 p < 256) p hp
        rw [testBit_eq_false_of_lt_256 hlt (by omega)]
        exact ⟨fun h => Bool.noConfusion h, fun h => absurd (link_pins_bit_lt p b h) hb⟩
    · intro p hp b
      obtain ⟨e1, -, e3⟩ := gpio_init_2_from_zero s p (configuredPorts_ne_F p hp)
      rw [e1, e3]
      by_cases hb : b < 8
      · exact (by decide : ∀ p ∈ configuredPorts, ∀ b < 8,
          ((gpio_init_2 Regs.zero).DDR p).testBit b = false →
            ((gpio_init_2 Regs.zero).CR2 p).testBit b = false) p hp b hb
      · have hlt := (by decide : ∀ p ∈ configuredPorts,
          (gpio_init_2 Regs.zero).CR2 p < 256) p hp
        intro _
        exact testBit_eq_false_of_lt_256 hlt (by omega)
  · refine ⟨?_, by decide, ?_⟩
    · intro p hp b
      rw [(gpio_init_3_from_zero s p (configuredPorts_ne_F p hp)).2.2]
      by_cases hb : b < 8
      · exact (by decide : ∀ p ∈ configuredPorts, ∀ b < 8,
          (((gpio_init_3 Regs.zero).CR2 p).testBit b = true ↔
            (p, b) ∈ [(Port.C, 1), (.C, 2), (.C, 3), (.E, 5)])) p hp b hb
      · have hlt := (by decide : ∀ p ∈ configuredPorts,
          (gpio_init_3 Regs.zero).CR2 p < 256) p hp
        rw [testBit_eq_false_of_lt_256 hlt (by omega)]
        exact ⟨fun h => Bool.noConfusion h, fun h => absurd (link_pins_bit_lt p b h) hb⟩
    · intro p hp b
      obtain ⟨e1, -, e3⟩ := gpio_init_3_from_zero s p (configuredPorts_ne_F p hp)
      rw [e1, e3]
      by_cases hb : b < 8
      · exact (by decide : ∀ p ∈ configuredPorts, ∀ b < 8,
          ((gpio_init_3 Regs.zero).DDR p).testBit b = false →
            ((gpio_init_3 Regs.zero).CR2 p).testBit b = false) p hp b hb
      · have hlt := (by decide : ∀ p ∈ configuredPorts,
          (gpio_init_3 Regs.zero).CR2 p < 256) p hp
        intro _
        exact testBit_eq_false_of_lt_256 hlt (by omega)

/-- C9 as stated fails: started from `swimProbe`, in each of the three
variants gpio_init changes bit 1 of Port D's direction, control-1 and
control-2 registers. -/
theorem gpio_init_changes_swim_bits :
    ((gpio_init_1 swimProbe).PD_DDR.testBit 1 ≠ swimProbe.PD_DDR.testBit 1 ∧
     (gpio_init_1 swimProbe).PD_CR1.testBit 1 ≠ swimProbe.PD_CR1.testBit 1 ∧
     (gpio_init_1 swimProbe).PD_CR2.testBit 1 ≠ swimProbe.PD_CR2.testBit 1) ∧
    ((gpio_init_2 swimProbe).PD_DDR.testBit 1 ≠ swimProbe.PD_DDR.testBit 1 ∧
     (gpio_init_2 swimProbe).PD_CR1.testBit 1 ≠ swimProbe.PD_CR1.testBit 1 ∧
     (gpio_init_2 swimProbe).PD_CR2.testBit 1 ≠ swimProbe.PD_CR2.testBit 1) ∧
    ((gpio_init_3 swimProbe).PD_DDR.testBit 1 ≠ swimProbe.PD_DDR.testBit 1 ∧
     (gpio_init_3 swimProbe).PD_CR1.testBit 1 ≠ swimProbe.PD_CR1.testBit 1 ∧
     (gpio_init_3 swimProbe).PD_CR2.testBit 1 ≠ swimProbe.PD_CR2.testBit 1) := by
  decide

/-- C9, amended: in every variant gpio_init stores whole bytes to Port D, so
for every register state before the call bit 1 of Port D (the Alternate SWIM
line of the pinout map) is left 0 in the direction register, 1 in control-1
and 0 in control-2; the three bits equal their values before the call exactly
when those were already 0, 1 and 0. -/
theorem gpio_init_swim_bits (s : Regs) :
    (((gpio_init_1 s).PD_DDR.testBit 1 = false ∧ (gpio_init_1 s).PD_CR1.testBit 1 = true ∧
      (gpio_init_1 s).PD_CR2.testBit 1 = false) ∧
     (((gpio_init_1 s).PD_DDR.testBit 1 = s.PD_DDR.testBit 1 ∧
       (gpio_init_1 s).PD_CR1.testBit 1 = s.PD_CR1.testBit 1 ∧
       (gpio_init_1 s).PD_CR2.testBit 1 = s.PD_CR2.testBit 1) ↔
      (s.PD_DDR.testBit 1 = false ∧ s.PD_CR1.testBit 1 = true ∧
       s.PD_CR2.testBit 1 = false)) ∧
     (∀ r ∈ pinout_1, r.func = some .SWIM ↔ r.loc = (.D, 1)) ∧
     (∀ r ∈ pinout_1, r.loc = (.D, 1) → r.role = some .Alternate)) ∧
    (((gpio_init_2 s).PD_DDR.testBit 1 = false ∧ (gpio_init_2 s).PD_CR1.testBit 1 = true ∧
      (gpio_init_2 s).PD_CR2.testBit 1 = false) ∧
     (((gpio_init_2 s).PD_DDR.testBit 1 = s.PD_DDR.testBit 1 ∧
       (gpio_init_2 s).PD_CR1.testBit 1 = s.PD_CR1.testBit 1 ∧
       (gpio_init_2 s).PD_CR2.testBit 1 = s.PD_CR2.testBit 1) ↔
      (s.PD_DDR.testBit 1 = false ∧ s.PD_CR1.testBit 1 = true ∧
       s.PD_CR2.testBit 1 = false)) ∧
     (∀ r ∈ pinout_2, r.func = some .SWIM ↔ r.loc = (.D, 1)) ∧
     (∀ r ∈ pinout_2, r.loc = (.D, 1) → r.role = some .Alternate)) ∧
    (((gpio_init_3 s).PD_DDR.testBit 1 = false ∧ (gpio_init_3 s).PD_CR1.testBit 1 = true ∧
      (gpio_init_3 s).PD_CR2.testBit 1 = false) ∧
     (((gpio_init_3 s).PD_DDR.testBit 1 = s.PD_DDR.testBit 1 ∧
       (gpio_init_3 s).PD_CR1.testBit 1 = s.PD_CR1.testBit 1 ∧
       (gpio_init_3 s).PD_CR2.testBit 1 = s.PD_CR2.testBit 1) ↔
      (s.PD_DDR.testBit 1 = false ∧ s.PD_CR1.testBit 1 = true ∧
       s.PD_CR2.testBit 1 = false)) ∧
     (∀ r ∈ pinout_3, r.func = some .SWIM ↔ r.loc = (.D, 1)) ∧
     (∀ r ∈ pinout_3, r.loc = (.D, 1) → r.role = some .Alternate)) := by
  refine ⟨?_, ?_, ?_⟩
  · have hd : (gpio_init_1 s).PD_DDR.testBit 1 = false := by
      show (gpio_init_1 Regs.zero).PD_DDR.testBit 1 = false
      decide
    have h1 : (gpio_init_1 s).PD_CR1.testBit 1 = true := by
      show (gpio_init_1 Regs.zero).PD_CR1.testBit 1 = true
      decide
    have h2 : (gpio_init_1 s).PD_CR2.testBit 1 = false := by
      show (gpio_init_1 Regs.zero).PD_CR2.testBit 1 = false
      decide
    refine ⟨⟨hd, h1, h2⟩, ?_, by decide, by decide⟩
    rw [hd, h1, h2]
    exact ⟨fun ⟨a, b, c⟩ => ⟨a.symm, b.symm, c.symm⟩, fun ⟨a, b, c⟩ => ⟨a.symm, b.symm, c.symm⟩⟩
  · have hd : (gpio_init_2 s).PD_DDR.testBit 1 = false := by
      show (gpio_init_2 Regs.zero).PD_DDR.testBit 1 = false
      decide
    have h1 : (gpio_init_2 s).PD_CR1.testBit 1 = true := by
      show (gpio_init_2 Regs.zero).PD_CR1.testBit 1 = true
      decide
    have h2 : (gpio_init_2 s).PD_CR2.testBit 1 = false := by
      show (gpio_init_2 Regs.zero).PD_CR2.testBit 1 = false
      decide
    refine ⟨⟨hd, h1, h2⟩, ?_, by decide, by decide⟩
    rw [hd, h1, h2]
    exact ⟨fun ⟨a, b, c⟩ => ⟨a.symm, b.symm, c.symm⟩, fun ⟨a, b, c⟩ => ⟨a.symm, b.symm, c.symm⟩⟩
  · have hd : (gpio_init_3 s).PD_DDR.testBit 1 = false := by
      show (gpio_init_3 Regs.zero).PD_DDR.testBit 1 = false
      decide
    have h1 : (gpio_init_3 s).PD_CR1.testBit 1 = true := by
      show (gpio_init_3 Regs.zero).PD_CR1.testBit 1 = true
      decide
    have h2 : (gpio_init_3 s).PD_CR2.testBit 1 = false := by
      show (gpio_init_3 Regs.zero).PD_CR2.testBit 1 = false
      decide
    refine ⟨⟨hd, h1, h2⟩, ?_, by decide, by decide⟩
    rw [hd, h1, h2]
    exact ⟨fun ⟨a, b, c⟩ => ⟨a.symm, b.symm, c.symm⟩, fun ⟨a, b, c⟩ => ⟨a.symm, b.symm, c.symm⟩⟩

/-- C10: in each of the three variants the pinout lines marked "Not used?" are
Port A bit 6, Port B bits 7..0 and Port E bits 7, 6, 2, 1; each has role
Input PU and gpio_init leaves its direction bit 0, control-1 bit 1 and
control-2 bit 0; Port B is left as (0x00, 0xFF, 0x00). -/
theorem gpio_init_unused_pins_pulled_up (s : Regs) :
    (locations pinout_1 .NotUsed =
       [(Port.A, 6), (.B, 7), (.B, 6), (.B, 5), (.B, 4), (.B, 3), (.B, 2), (.B, 1), (.B, 0),
        (.E, 7), (.E, 6), (.E, 2), (.E, 1)] ∧
     (∀ r ∈ pinout_1, r.func = some .NotUsed →
        r.role = some .InputPU ∧
        ((gpio_init_1 s).DDR r.port).testBit r.bit = false ∧
        ((gpio_init_1 s).CR1 r.port).testBit r.bit = true ∧
        ((gpio_init_1 s).CR2 r.port).testBit r.bit = false) ∧
     (gpio_init_1 s).config .B = (0x00, 0xFF, 0x00)) ∧
    (locations pinout_2 .NotUsed =
       [(Port.A, 6), (.B, 7), (.B, 6), (.B, 5), (.B, 4), (.B, 3), (.B, 2), (.B, 1), (.B, 0),
        (.E, 7), (.E, 6), (.E, 2), (.E, 1)] ∧
     (∀ r ∈ pinout_2, r.func = some .NotUsed →
        r.role = some .InputPU ∧
        ((gpio_init_2 s).DDR r.port).testBit r.bit = false ∧
        ((gpio_init_2 s).CR1 r.port).testBit r.bit = true ∧
        ((gpio_init_2 s).CR2 r.port).testBit r.bit = false) ∧
     (gpio_init_2 s).config .B = (0x00, 0xFF, 0x00)) ∧
    (locations pinout_3 .NotUsed =
       [(Port.A, 6), (.B, 7), (.B, 6), (.B, 5), (.B, 4), (.B, 3), (.B, 2), (.B, 1), (.B, 0),
        (.E, 7), (.E, 6), (.E, 2), (.E, 1)] ∧
     (∀ r ∈ pinout_3, r.func = some .NotUsed →
        r.role = some .InputPU ∧
        ((gpio_init_3 s).DDR r.port).testBit r.bit = false ∧
        ((gpio_init_3 s).CR1 r.port).testBit r.bit = true ∧
        ((gpio_init_3 s).CR2 r.port).testBit r.bit = false) ∧
     (gpio_init_3 s).config .B = (0x00, 0xFF, 0x00)) := by
  refine ⟨?_, ?_, ?_⟩
  · refine ⟨by decide, ?_, rfl⟩
    intro r hr hf
    obtain ⟨e1, e2, e3⟩ := gpio_init_1_from_zero s r.port (pinout_port_ne_F.1 r hr)
    rw [e1, e2, e3]
    exact (by decide : ∀ r ∈ pinout_1, r.func = some .NotUsed →
        r.role = some .InputPU ∧
        ((gpio_init_1 Regs.zero).DDR r.port).testBit r.bit = false ∧
        ((gpio_init_1 Regs.zero).CR1 r.port).testBit r.bit = true ∧
        ((gpio_init_1 Regs.zero).CR2 r.port).testBit r.bit = false) r hr hf
  · refine ⟨by decide, ?_, rfl⟩
    intro r hr hf
    obtain ⟨e1, e2, e3⟩ := gpio_init_2_from_zero s r.port (pinout_port_ne_F.2.1 r hr)
    rw [e1, e2, e3]
    exact (by decide : ∀ r ∈ pinout_2, r.func = some .NotUsed →
        r.role = some .InputPU ∧
        ((gpio_init_2 Regs.zero).DDR r.port).testBit r.bit = false ∧
        ((gpio_init_2 Regs.zero).CR1 r.port).testBit r.bit = true ∧
        ((gpio_init_2 Regs.zero).CR2 r.port).testBit r.bit = false) r hr hf
  · refine ⟨by decide, ?_, rfl⟩
    intro r hr hf
    obtain ⟨e1, e2, e3⟩ := gpio_init_3_from_zero s r.port (pinout_port_ne_F.2.2 r hr)
    rw [e1, e2, e3]
    exact (by decide : ∀ r ∈ pinout_3, r.func = some .NotUsed →
        r.role = some .InputPU ∧
        ((gpio_init_3 Regs.zero).DDR r.port).testBit r.bit = false ∧
        ((gpio_init_3 Regs.zero).CR1 r.port).testBit r.bit = true ∧
        ((gpio_init_3 Regs.zero).CR2 r.port).testBit r.bit = false) r hr hf

/-- C11: for every value of GPIO_SUPPORT, exactly one gpio_init definition is
in effect when the value is 1, 2 or 3 (the one of that `#if` block) and none
for any other value, so a call of gpio_init yields a configured register file
exactly for the values 1, 2, 3 and nothing otherwise; the value configured in
uipopt.h is 1, within the range. -/
theorem gpio_init_defined_iff_in_range (G : Int) :
    (gpio_init_defs G).length = (if G = 1 ∨ G = 2 ∨ G = 3 then 1 else 0) ∧
    (∀ s, gpio_init 1 s = some (gpio_init_1 s) ∧ gpio_init 2 s = some (gpio_init_2 s) ∧
      gpio_init 3 s = some (gpio_init_3 s)) ∧
    (∀ s, (gpio_init G s).isSome = true ↔ (G = 1 ∨ G = 2 ∨ G = 3)) ∧
    (∀ s, gpio_init G s = none ↔ ¬(G = 1 ∨ G = 2 ∨ G = 3)) ∧
    (GPIO_SUPPORT = 1 ∨ GPIO_SUPPORT = 2 ∨ GPIO_SUPPORT = 3) ∧
    (∀ s, gpio_init GPIO_SUPPORT s = some (gpio_init_1 s)) := by
  refine ⟨?_, fun s => ⟨rfl, rfl, rfl⟩, ?_, ?_, Or.inl rfl, fun s => rfl⟩
  · by_cases h1 : G = 1
    · subst h1; rfl
    · by_cases h2 : G = 2
      · subst h2; rfl
      · by_cases h3 : G = 3
        · subst h3; rfl
        · simp [gpio_init_defs, h1, h2, h3]
  · intro s
    by_cases h1 : G = 1
    · subst h1; simp [gpio_init, gpio_init_defs]
    · by_cases h2 : G = 2
      · subst h2; simp [gpio_init, gpio_init_defs]
      · by_cases h3 : G = 3
        · subst h3; simp [gpio_init, gpio_init_defs]
        · simp [gpio_init, gpio_init_defs, h1, h2, h3]
  · intro s
    by_cases h1 : G = 1
    · subst h1; simp [gpio_init, gpio_init_defs]
    · by_cases h2 : G = 2
      · subst h2; simp [gpio_init, gpio_init_defs]
      · by_cases h3 : G = 3
        · subst h3; simp [gpio_init, gpio_init_defs]
        · simp [gpio_init, gpio_init_defs, h1, h2, h3]

/-- C14: in every variant, for every register state before the call, gpio_init
leaves the output data register of every port (A, B, C, D, E, F, G) and all
four registers of Port F as they were. -/
theorem gpio_init_keeps_data_and_port_F (s : Regs) :
    ((∀ p, (gpio_init_1 s).ODR p = s.ODR p) ∧
     (gpio_init_1 s).PF_ODR = s.PF_ODR ∧ (gpio_init_1 s).PF_DDR = s.PF_DDR ∧
     (gpio_init_1 s).PF_CR1 = s.PF_CR1 ∧ (gpio_init_1 s).PF_CR2 = s.PF_CR2) ∧
    ((∀ p, (gpio_init_2 s).ODR p = s.ODR p) ∧
     (gpio_init_2 s).PF_ODR = s.PF_ODR ∧ (gpio_init_2 s).PF_DDR = s.PF_DDR ∧
     (gpio_init_2 s).PF_CR1 = s.PF_CR1 ∧ (gpio_init_2 s).PF_CR2 = s.PF_CR2) ∧
    ((∀ p, (gpio_init_3 s).ODR p = s.ODR p) ∧
     (gpio_init_3 s).PF_ODR = s.PF_ODR ∧ (gpio_init_3 s).PF_DDR = s.PF_DDR ∧
     (gpio_init_3 s).PF_CR1 = s.PF_CR1 ∧ (gpio_init_3 s).PF_CR2 = s.PF_CR2) := by
  refine ⟨⟨?_, rfl, rfl, rfl, rfl⟩, ⟨?_, rfl, rfl, rfl, rfl⟩, ⟨?_, rfl, rfl, rfl, rfl⟩⟩ <;>
  · intro p
    cases p <;> rfl

/-- C12 at the all-zero register file: in each of the three variants the bits
the pinout map marks "Not attached to pin" are Port A bits 7 and 0, Port C
bit 0, Port E bit 4 and Port G bits 7..2, and for each of them gpio_init
turns the control-1 bit from 0 to 1 (and leaves direction and control-2 at
0): the byte-wide stores write these bits too. -/
theorem gpio_init_writes_unattached_bits :
    (unattached pinout_1 =
       [(Port.A, 7), (.A, 0), (.C, 0), (.E, 4), (.G, 7), (.G, 6), (.G, 5), (.G, 4), (.G, 3), (.G, 2)] ∧
     (∀ pb ∈ unattached pinout_1,
        (Regs.zero.CR1 pb.1).testBit pb.2 = false ∧
        ((gpio_init_1 Regs.zero).CR1 pb.1).testBit pb.2 = true ∧
        ((gpio_init_1 Regs.zero).DDR pb.1).testBit pb.2 = false ∧
        ((gpio_init_1 Regs.zero).CR2 pb.1).testBit pb.2 = false)) ∧
    (unattached pinout_2 =
       [(Port.A, 7), (.A, 0), (.C, 0), (.E, 4), (.G, 7), (.G, 6), (.G, 5), (.G, 4), (.G, 3), (.G, 2)] ∧
     (∀ pb ∈ unattached pinout_2,
        (Regs.zero.CR1 pb.1).testBit pb.2 = false ∧
        ((gpio_init_2 Regs.zero).CR1 pb.1).testBit pb.2 = true ∧
        ((gpio_init_2 Regs.zero).DDR pb.1).testBit pb.2 = false ∧
        ((gpio_init_2 Regs.zero).CR2 pb.1).testBit pb.2 = false)) ∧
    (unattached pinout_3 =
       [(Port.A, 7), (.A, 0), (.C, 0), (.E, 4), (.G, 7), (.G, 6), (.G, 5), (.G, 4), (.G, 3), (.G, 2)] ∧
     (∀ pb ∈ unattached pinout_3,
        (Regs.zero.CR1 pb.1).testBit pb.2 = false ∧
        ((gpio_init_3 Regs.zero).CR1 pb.1).testBit pb.2 = true ∧
        ((gpio_init_3 Regs.zero).DDR pb.1).testBit pb.2 = false ∧
        ((gpio_init_3 Regs.zero).CR2 pb.1).testBit pb.2 = false)) := by
  refine ⟨?_, ?_, ?_⟩ <;> decide

/-- C13: for every state value other than 1 and every prior register file,
LEDcontrol(state) leaves bit 2 of PA_ODR clear and does exactly what
LEDcontrol(0) does; LEDcontrol(1) leaves bit 2 set. -/
theorem LEDcontrol_off_unless_one (state : Nat) (s : Regs) (h : state ≠ 1) :
    (LEDcontrol state s).PA_ODR.testBit 2 = false ∧
    LEDcontrol state s = LEDcontrol 0 s ∧
    (LEDcontrol 1 s).PA_ODR.testBit 2 = true := by
  have hoff : LEDcontrol state s = LEDcontrol 0 s := by
    simp [LEDcontrol, h]
  refine ⟨?_, hoff, ?_⟩
  · rw [hoff]
    show ((s.PA_ODR &&& 251) % 2 ^ 8).testBit 2 = false
    rw [Nat.testBit_mod_two_pow, Nat.testBit_and]
    simp [show Nat.testBit 251 2 = false by decide]
  · show ((s.PA_ODR ||| 4) % 2 ^ 8).testBit 2 = true
    rw [Nat.testBit_mod_two_pow, Nat.testBit_or]
    simp [show Nat.testBit 4 2 = true by decide]

/-- Witness for C13: with PA_ODR = 0xFF, LEDcontrol(2) and LEDcontrol(255)
both leave 0xFB. -/
theorem LEDcontrol_off_unless_one_witness :
    (2 : Nat) ≠ 1 ∧ (255 : Nat) ≠ 1 ∧
    (LEDcontrol 2 (withPA_ODR 0xFF)).PA_ODR.testBit 2 = false ∧
    (LEDcontrol 255 (withPA_ODR 0xFF)).PA_ODR.testBit 2 = false ∧
    (LEDcontrol 2 (withPA_ODR 0xFF)).PA_ODR = 0xFB ∧
    (LEDcontrol 255 (withPA_ODR 0xFF)).PA_ODR = 0xFB :=
  ⟨by decide, by decide,
   (LEDcontrol_off_unless_one 2 (withPA_ODR 0xFF) (by decide)).1,
   (LEDcontrol_off_unless_one 255 (withPA_ODR 0xFF) (by decide)).1,
   by decide, by decide⟩

/-- C15: for every N in 1..16, Input N of the 16-input map is at the one
(port, bit) where the 16-output map has Relay N; in the 8-output/8-input map,
for every N in 1..8, Relay N is at the place of Relay N and Input N at the
place of Relay N+8 of the 16-output map. -/
theorem pinout_channel_numbers_keep_their_pins :
    (∀ n, 1 ≤ n → n ≤ 16 →
      ∃ pb, locations pinout_1 (.Relay n) = [pb] ∧ locations pinout_3 (.Input n) = [pb]) ∧
    (∀ n, 1 ≤ n → n ≤ 8 →
      (∃ pb, locations pinout_1 (.Relay n) = [pb] ∧ locations pinout_2 (.Relay n) = [pb]) ∧
      (∃ pb, locations pinout_1 (.Relay (n + 8)) = [pb] ∧
        locations pinout_2 (.Input n) = [pb])) := by
  constructor
  · intro n h1 h2
    interval_cases n <;> exact ⟨_, rfl, rfl⟩
  · intro n h1 h2
    interval_cases n <;> exact ⟨⟨_, rfl, rfl⟩, ⟨_, rfl, rfl⟩⟩

end NetworkModule
